import Mathlib

/-!
A shallow embedding of the routing core of `src/include/cuehttp/router.hpp`
(class `cue::http::router` in namespace `cue::http`).

Modelling choices:

* `context` models the narrow interface of the external `cue::http::context`
  collaborator consumed by the router: `method()`, `path()`, `status()`,
  `status(int)` and `redirect(dest)`.  Handlers mutate the context in place
  in C++; here a mutation is a function `context → context`.
* A canonical middleware handler `void(context&, std::function<void()>)` is
  embedded as a finite, branch-free sequence of steps (`Handler`): each step
  either mutates the context (`HStep.act`) or invokes the continuation
  (`HStep.callNext`).  The number of continuation invocations a handler
  performs is thus the number of `callNext` steps it contains.
* The self-referential continuation closure of `router::compose`
  (`next = [&handlers, &next, &index, &ctx]() {...}`, lines 348-357) shares
  one mutable `index` with all handlers of the chain; the embedding threads
  that shared state explicitly in `RunSt`.  `RunSt.trace` is observational
  instrumentation: it records, in order, the position of every chain handler
  invocation.  `RunSt.oob` records that the C++ code would have performed an
  out-of-bounds `handlers[index]` access (the `++index == handlers.size()`
  guard only catches exact equality); from such a point on the C++ behaviour
  is undefined.
* `callNextFn` carries a `fuel` argument bounding the nesting depth of
  continuation re-entry.  In the C++ code that depth is bounded by the chain
  length, because the shared `index` strictly increases and a handler is
  only entered while `index < handlers.size()`; `composedRun` passes
  `handlers.length + 1` fuel, which therefore can never be exhausted.
* `std::unordered_map<std::string, ...>::emplace` inserts only when the key
  is absent; the table is embedded as an association list with exactly that
  emplace semantics.
-/

namespace Cuehttp

/-- Model of the `cue::http::context` interface consumed by the router. -/
structure context where
  method : String
  path : String
  status : Nat
  redirect_target : Option String
  deriving DecidableEq

/-- State of one dispatch through a composed chain: the context being
mutated, the shared cursor `index` of `router::compose`, the instrumentation
trace of invoked handler positions, and the out-of-bounds marker. -/
structure RunSt where
  ctx : context
  index : Nat
  trace : List Nat
  oob : Bool
  deriving DecidableEq

/-- One step of a canonical handler body: mutate the context, or invoke the
continuation (`next()`). -/
inductive HStep where
  | act : (context → context) → HStep
  | callNext : HStep

/-- A canonical handler `void(context&, std::function<void()>)`, as the
finite sequence of context mutations and continuation calls it performs. -/
abbrev Handler := List HStep

/-- The handler shapes accepted by the variadic registration, one
constructor per `register_multiple` overload family of `router.hpp`:
free/lambda with continuation, free/lambda terminal, member function with
continuation bound to an instance pointer (the `Bool` says whether the
pointer is non-null), member function with continuation without an instance
(a fresh default instance is created per call), and the analogous two
terminal member variants.  A member body is given as the step sequence the
member performs; instance identity and state are not modelled. -/
inductive HandlerArg where
  | withNext : Handler → HandlerArg
  | terminal : (context → context) → HandlerArg
  | memWithNext : Handler → Bool → HandlerArg
  | memWithNextUnbound : Handler → HandlerArg
  | memTerminal : (context → context) → Bool → HandlerArg
  | memTerminalUnbound : (context → context) → HandlerArg

/-- Normalisation performed by the `register_multiple` overloads
(`router.hpp` lines 142-250): every accepted shape becomes one canonical
handler.  A terminal handler is wrapped as `{ func(ctx); next(); }` (lines
160-163); a bound member with continuation is invoked only when the instance
pointer is non-null (lines 182-186: on a null pointer neither the member nor
`next` runs); a bound terminal member skips the member call on a null
pointer but calls `next()` unconditionally (lines 201-206); unbound members
always run, on a fresh default instance (lines 193, 213-216). -/
def normalize : HandlerArg → Handler
  | HandlerArg.withNext h => h
  | HandlerArg.terminal f => [HStep.act f, HStep.callNext]
  | HandlerArg.memWithNext body self => if self then body else []
  | HandlerArg.memWithNextUnbound body => body
  | HandlerArg.memTerminal f self =>
    if self then [HStep.act f, HStep.callNext] else [HStep.callNext]
  | HandlerArg.memTerminalUnbound f => [HStep.act f, HStep.callNext]

/-- The handler vector built by the chained `register_multiple` calls. -/
def register_multiple (args : List HandlerArg) : List Handler :=
  args.map normalize

/-- Run a handler body step by step; `nf` is the continuation value the
handler was given as `next`. -/
def runSteps (nf : RunSt → RunSt) : List HStep → RunSt → RunSt
  | [], s => s
  | HStep.act f :: rest, s => runSteps nf rest { s with ctx := f s.ctx }
  | HStep.callNext :: rest, s => runSteps nf rest (nf s)

/-- The recursive continuation of `router::compose` (lines 348-357):
increment the shared cursor; if it then equals the chain length, return;
otherwise invoke the handler at the new cursor position with the same
continuation.  There is no bounds check beyond the equality test: a cursor
that lands past the end is an out-of-bounds `handlers[index]` access in the
C++ code, recorded here by `oob := true`.  `fuel` bounds re-entry depth; the
cursor strictly increases, so the depth is at most the chain length and the
fuel passed by `composedRun` is never exhausted (exhaustion would also set
`oob`). -/
def callNextFn (H : List Handler) : Nat → RunSt → RunSt
  | 0, s => { s with oob := true }
  | fuel + 1, s =>
    if s.index + 1 = H.length then { s with index := s.index + 1 }
    else
      match H[s.index + 1]? with
      | some h =>
        runSteps (callNextFn H fuel) h
          { s with index := s.index + 1, trace := s.trace ++ [s.index + 1] }
      | none => { s with index := s.index + 1, oob := true }

/-- The composed handler built by `router::compose` (lines 340-359): an
empty chain is a no-op; a single handler runs once with a do-nothing
continuation; otherwise handler 0 runs with the shared-cursor continuation.
The trace starts at `[0]` when handler 0 is invoked. -/
def composedRun (H : List Handler) (c : context) : RunSt :=
  if H.isEmpty then { ctx := c, index := 0, trace := [], oob := false }
  else if H.length = 1 then
    runSteps (fun s => s) (H.getD 0 []) { ctx := c, index := 0, trace := [0], oob := false }
  else
    runSteps (callNextFn H (H.length + 1)) (H.getD 0 [])
      { ctx := c, index := 0, trace := [0], oob := false }

/-- Insert-if-absent: the semantics of `std::unordered_map::emplace`. -/
def emplace (tbl : List (String × (context → RunSt))) (key : String)
    (v : context → RunSt) : List (String × (context → RunSt)) :=
  if (tbl.find? (fun e => e.1 == key)).isSome then tbl else tbl ++ [(key, v)]

/-- Exact-match table lookup (`handlers_.find(key)`, line 372). -/
def lookup (tbl : List (String × (context → RunSt))) (key : String) :
    Option (context → RunSt) :=
  (tbl.find? (fun e => e.1 == key)).map (fun e => e.2)

/-- The router: a prefix string and the dispatch table `handlers_`. -/
structure router where
  prefix_ : String
  handlers_ : List (String × (context → RunSt))

/-- `router::compose` (lines 338-361): build the composed handler for the
normalised chain and emplace it under `method + "+" + prefix_ + path`. -/
def router.compose (r : router) (method : String) (path : String)
    (hs : List Handler) : router :=
  { r with
    handlers_ :=
      emplace r.handlers_ (method ++ "+" ++ r.prefix_ ++ path) (composedRun hs) }

/-- `router::register_with_next` (lines 288-295): store a single
with-continuation handler, invoked with a do-nothing `next`. -/
def router.register_with_next (r : router) (method : String) (path : String)
    (h : Handler) : router :=
  { r with
    handlers_ :=
      emplace r.handlers_ (method ++ "+" ++ r.prefix_ ++ path)
        (fun c => runSteps (fun s => s) h { ctx := c, index := 0, trace := [0], oob := false }) }

/-- `router::register_without_next` (lines 309-312): store a single terminal
handler directly. -/
def router.register_without_next (r : router) (method : String) (path : String)
    (f : context → context) : router :=
  { r with
    handlers_ :=
      emplace r.handlers_ (method ++ "+" ++ r.prefix_ ++ path)
        (fun c => { ctx := f c, index := 0, trace := [0], oob := false }) }

/-- The single-argument `register_impl` overloads (lines 252-286): free
handlers go to `register_with_next` / `register_without_next`; a single
member handler always runs its body (on the bound instance when the pointer
is non-null, otherwise on a fresh default instance, lines 297-323), so the
null check of the chain case does not apply here. -/
def router.register_single (r : router) (method : String) (path : String) :
    HandlerArg → router
  | HandlerArg.withNext h => router.register_with_next r method path h
  | HandlerArg.terminal f => router.register_without_next r method path f
  | HandlerArg.memWithNext body _ => router.register_with_next r method path body
  | HandlerArg.memWithNextUnbound body => router.register_with_next r method path body
  | HandlerArg.memTerminal f _ => router.register_without_next r method path f
  | HandlerArg.memTerminalUnbound f => router.register_without_next r method path f

/-- `register_impl`: one argument dispatches to the single-handler overloads
(lines 252-286), two or more build the normalised vector and `compose` it
(lines 101-140).  The C++ variadic interface cannot be called with zero
handler arguments, so the empty case registers nothing. -/
def router.register_impl (r : router) (method : String) (path : String) :
    List HandlerArg → router
  | [] => r
  | [a] => router.register_single r method path a
  | args => router.compose r method path (register_multiple args)

/-- `router::del`. -/
def router.del (r : router) (path : String) (args : List HandlerArg) : router :=
  router.register_impl r "DEL" path args

/-- `router::get`. -/
def router.get (r : router) (path : String) (args : List HandlerArg) : router :=
  router.register_impl r "GET" path args

/-- `router::head`. -/
def router.head (r : router) (path : String) (args : List HandlerArg) : router :=
  router.register_impl r "HEAD" path args

/-- `router::post`. -/
def router.post (r : router) (path : String) (args : List HandlerArg) : router :=
  router.register_impl r "POST" path args

/-- `router::put`. -/
def router.put (r : router) (path : String) (args : List HandlerArg) : router :=
  router.register_impl r "PUT" path args

/-- `router::all` (lines 81-88): register the same handler arguments under
each of the five verbs, in the order DEL, GET, HEAD, POST, PUT. -/
def router.all (r : router) (path : String) (args : List HandlerArg) : router :=
  ["DEL", "GET", "HEAD", "POST", "PUT"].foldl
    (fun acc m => router.register_impl acc m path args) r

/-- The three-argument `redirect_impl` (lines 330-336): sugar for `all` with
one terminal handler that sets the redirect target and the status. -/
def router.redirect_impl (r : router) (path : String) (destination : String)
    (status : Nat) : router :=
  router.all r path
    [HandlerArg.terminal
      (fun c => { c with redirect_target := some destination, status := status })]

/-- The two-argument `redirect_impl` (lines 325-328): default status 301. -/
def router.redirect (r : router) (path : String) (destination : String) : router :=
  router.redirect_impl r path destination 301

/-- The dispatcher returned by `router::routes()` / `make_routes` (lines
363-377): return immediately unless the context status is the unhandled
sentinel 404; otherwise build `method + "+" + prefix_ + path` from the
incoming context, look it up, and on a hit run the stored composed handler.
A miss is a no-op. -/
def router.make_routes (r : router) (c : context) : RunSt :=
  if c.status ≠ 404 then { ctx := c, index := 0, trace := [], oob := false }
  else
    match lookup r.handlers_ (c.method ++ "+" ++ r.prefix_ ++ c.path) with
    | some h => h c
    | none => { ctx := c, index := 0, trace := [], oob := false }

/-- `router::routes()` (lines 41-43). -/
def router.routes (r : router) : context → RunSt :=
  router.make_routes r

/-- A handler body that never invokes the continuation. -/
def noNextB : List HStep → Bool
  | [] => true
  | HStep.act _ :: rest => noNextB rest
  | HStep.callNext :: _ => false

/-- The cumulative context mutation of the `act` steps of a body. -/
def applyActs : List HStep → context → context
  | [], c => c
  | HStep.act f :: rest, c => applyActs rest (f c)
  | HStep.callNext :: rest, c => applyActs rest c

theorem runSteps_nil (nf : RunSt → RunSt) (s : RunSt) : runSteps nf [] s = s := rfl

theorem runSteps_act (nf : RunSt → RunSt) (f : context → context)
    (rest : List HStep) (s : RunSt) :
    runSteps nf (HStep.act f :: rest) s = runSteps nf rest { s with ctx := f s.ctx } := rfl

theorem runSteps_callNext (nf : RunSt → RunSt) (rest : List HStep) (s : RunSt) :
    runSteps nf (HStep.callNext :: rest) s = runSteps nf rest (nf s) := rfl

theorem runSteps_append (nf : RunSt → RunSt) (xs ys : List HStep) (s : RunSt) :
    runSteps nf (xs ++ ys) s = runSteps nf ys (runSteps nf xs s) := by
  induction xs generalizing s with
  | nil => rfl
  | cons x rest ih =>
    cases x with
    | act f => rw [List.cons_append, runSteps_act, runSteps_act, ih]
    | callNext => rw [List.cons_append, runSteps_callNext, runSteps_callNext, ih]

/-- Running a body with no continuation call only folds its mutations over
the context; cursor, trace and the out-of-bounds marker are untouched. -/
theorem runSteps_noNext (nf : RunSt → RunSt) (steps : List HStep) (s : RunSt)
    (h : noNextB steps = true) :
    runSteps nf steps s = { s with ctx := applyActs steps s.ctx } := by
  induction steps generalizing s with
  | nil => rfl
  | cons x rest ih =>
    cases x with
    | act f => rw [runSteps_act]; exact ih _ h
    | callNext => exact absurd h (by simp [noNextB])

/-- Running a body with exactly one continuation call: mutations before,
one `nf` call, mutations after. -/
theorem runSteps_oneNext (nf : RunSt → RunSt) (a b : List HStep) (s : RunSt)
    (ha : noNextB a = true) (hb : noNextB b = true) :
    runSteps nf (a ++ HStep.callNext :: b) s =
      { nf { s with ctx := applyActs a s.ctx } with
        ctx := applyActs b (nf { s with ctx := applyActs a s.ctx }).ctx } := by
  rw [runSteps_append, runSteps_noNext nf a s ha, runSteps_callNext,
    runSteps_noNext nf b _ hb]

theorem callNextFn_hit (H : List Handler) (n : Nat) (s : RunSt) (h : Handler)
    (hidx : ¬s.index + 1 = H.length) (hget : H[s.index + 1]? = some h) :
    callNextFn H (n + 1) s =
      runSteps (callNextFn H n) h
        { s with index := s.index + 1, trace := s.trace ++ [s.index + 1] } := by
  simp [callNextFn, hidx, hget]

theorem callNextFn_atEnd (H : List Handler) (n : Nat) (s : RunSt)
    (hidx : s.index + 1 = H.length) :
    callNextFn H (n + 1) s = { s with index := s.index + 1 } := by
  simp [callNextFn, hidx]

theorem callNextFn_oob (H : List Handler) (n : Nat) (s : RunSt)
    (hidx : ¬s.index + 1 = H.length) (hget : H[s.index + 1]? = none) :
    callNextFn H (n + 1) s = { s with index := s.index + 1, oob := true } := by
  simp [callNextFn, hidx, hget]

/-- A body run only ever appends to the instrumentation trace, provided the
continuation it is given does the same. -/
theorem runSteps_trace_extend (nf : RunSt → RunSt)
    (hnf : ∀ s : RunSt, ∃ t, (nf s).trace = s.trace ++ t) :
    ∀ (steps : List HStep) (s : RunSt), ∃ t, (runSteps nf steps s).trace = s.trace ++ t := by
  intro steps
  induction steps with
  | nil => exact fun s => ⟨[], by simp [runSteps_nil]⟩
  | cons x rest ih =>
    intro s
    cases x with
    | act f =>
      obtain ⟨t, ht⟩ := ih { s with ctx := f s.ctx }
      exact ⟨t, by rw [runSteps_act]; exact ht⟩
    | callNext =>
      obtain ⟨t1, ht1⟩ := hnf s
      obtain ⟨t2, ht2⟩ := ih (nf s)
      exact ⟨t1 ++ t2, by rw [runSteps_callNext, ht2, ht1, List.append_assoc]⟩

/-- The shared-cursor continuation only ever appends to the trace. -/
theorem callNextFn_trace_extend (H : List Handler) :
    ∀ (fuel : Nat) (s : RunSt), ∃ t, (callNextFn H fuel s).trace = s.trace ++ t := by
  intro fuel
  induction fuel with
  | zero => exact fun s => ⟨[], by simp [callNextFn]⟩
  | succ n ih =>
    intro s
    by_cases hidx : s.index + 1 = H.length
    · exact ⟨[], by rw [callNextFn_atEnd H n s hidx]; simp⟩
    · cases hget : H[s.index + 1]? with
      | none => exact ⟨[], by rw [callNextFn_oob H n s hidx hget]; simp⟩
      | some h =>
        obtain ⟨t, ht⟩ := runSteps_trace_extend (callNextFn H n) ih h
          { s with index := s.index + 1, trace := s.trace ++ [s.index + 1] }
        exact ⟨[s.index + 1] ++ t, by
          rw [callNextFn_hit H n s h hidx hget, ht]
          simp [List.append_assoc]⟩

theorem lookup_single (k : String) (v : context → RunSt) :
    lookup [(k, v)] k = some v := by
  simp [lookup, List.find?]

/-- Dispatch on a still-unhandled context with a table hit runs the stored
handler. -/
theorem make_routes_hit (r : router) (c : context) (v : context → RunSt)
    (hst : c.status = 404)
    (hl : lookup r.handlers_ (c.method ++ "+" ++ r.prefix_ ++ c.path) = some v) :
    router.make_routes r c = v c := by
  rw [router.make_routes, if_neg (by simp [hst]), hl]

/-- Dispatch on a still-unhandled context against a one-entry table whose key
is the lookup key built from the context itself runs the stored handler. -/
theorem make_routes_entry (r : router) (c : context) (v : context → RunSt)
    (hst : c.status = 404)
    (htbl : r.handlers_ = [(c.method ++ "+" ++ r.prefix_ ++ c.path, v)]) :
    router.make_routes r c = v c :=
  make_routes_hit r c v hst (by rw [htbl, lookup_single])

/-- Abbreviation for a dispatch state that has not gone out of bounds. -/
def stOf (d : context) (i : Nat) (tr : List Nat) : RunSt :=
  { ctx := d, index := i, trace := tr, oob := false }

/-- Cursor at position 1 of a three-handler chain whose third handler calls
the continuation exactly once: the continuation runs handler 2, whose own
continuation call hits the end of the chain. -/
theorem callNextFn_runChain2 (H : List Handler) (a3 b3 : List HStep)
    (hlen : H.length = 3) (hget : H[2]? = some (a3 ++ HStep.callNext :: b3))
    (ha3 : noNextB a3 = true) (hb3 : noNextB b3 = true)
    (d : context) (tr : List Nat) :
    callNextFn H 3 (stOf d 1 tr) =
      stOf (applyActs b3 (applyActs a3 d)) 3 (tr ++ [2]) := by
  have step : callNextFn H 3 (stOf d 1 tr) =
      runSteps (callNextFn H 2) (a3 ++ HStep.callNext :: b3) (stOf d 2 (tr ++ [2])) :=
    callNextFn_hit H 2 _ _ (by simp [stOf, hlen]) hget
  have inner : runSteps (callNextFn H 2) (a3 ++ HStep.callNext :: b3) (stOf d 2 (tr ++ [2])) =
      { callNextFn H 2 (stOf (applyActs a3 d) 2 (tr ++ [2])) with
        ctx := applyActs b3 (callNextFn H 2 (stOf (applyActs a3 d) 2 (tr ++ [2]))).ctx } :=
    runSteps_oneNext _ _ _ _ ha3 hb3
  have fin : callNextFn H 2 (stOf (applyActs a3 d) 2 (tr ++ [2])) =
      stOf (applyActs a3 d) 3 (tr ++ [2]) :=
    callNextFn_atEnd H 1 _ (by simp [stOf, hlen])
  rw [step, inner, fin]
  rfl

/-- Cursor at position 0 of a three-handler chain whose second and third
handlers each call the continuation exactly once: the whole remainder runs,
in order, exactly once. -/
theorem callNextFn_runChain1 (H : List Handler) (a2 b2 a3 b3 : List HStep)
    (hlen : H.length = 3)
    (hget1 : H[1]? = some (a2 ++ HStep.callNext :: b2))
    (hget2 : H[2]? = some (a3 ++ HStep.callNext :: b3))
    (ha2 : noNextB a2 = true) (hb2 : noNextB b2 = true)
    (ha3 : noNextB a3 = true) (hb3 : noNextB b3 = true)
    (d : context) (tr : List Nat) :
    callNextFn H 4 (stOf d 0 tr) =
      stOf (applyActs b2 (applyActs b3 (applyActs a3 (applyActs a2 d)))) 3 (tr ++ [1, 2]) := by
  have step : callNextFn H 4 (stOf d 0 tr) =
      runSteps (callNextFn H 3) (a2 ++ HStep.callNext :: b2) (stOf d 1 (tr ++ [1])) :=
    callNextFn_hit H 3 _ _ (by simp [stOf, hlen]) hget1
  have inner : runSteps (callNextFn H 3) (a2 ++ HStep.callNext :: b2) (stOf d 1 (tr ++ [1])) =
      { callNextFn H 3 (stOf (applyActs a2 d) 1 (tr ++ [1])) with
        ctx := applyActs b2 (callNextFn H 3 (stOf (applyActs a2 d) 1 (tr ++ [1]))).ctx } :=
    runSteps_oneNext _ _ _ _ ha2 hb2
  have fin : callNextFn H 3 (stOf (applyActs a2 d) 1 (tr ++ [1])) =
      stOf (applyActs b3 (applyActs a3 (applyActs a2 d))) 3 ((tr ++ [1]) ++ [2]) :=
    callNextFn_runChain2 H a3 b3 hlen hget2 ha3 hb3 _ _
  rw [step, inner, fin]
  simp [stOf, List.append_assoc]

/-- A three-handler chain in which every handler calls its continuation
exactly once runs the handlers in order 0, 1, 2, each exactly once, and
stays in bounds. -/
theorem composedRun_three_oneNext (a1 b1 a2 b2 a3 b3 : List HStep)
    (ha1 : noNextB a1 = true) (hb1 : noNextB b1 = true)
    (ha2 : noNextB a2 = true) (hb2 : noNextB b2 = true)
    (ha3 : noNextB a3 = true) (hb3 : noNextB b3 = true) (c : context) :
    composedRun
        [a1 ++ HStep.callNext :: b1, a2 ++ HStep.callNext :: b2,
         a3 ++ HStep.callNext :: b3] c =
      stOf (applyActs b1 (applyActs b2 (applyActs b3
          (applyActs a3 (applyActs a2 (applyActs a1 c)))))) 3 [0, 1, 2] := by
  have e0 : composedRun
      [a1 ++ HStep.callNext :: b1, a2 ++ HStep.callNext :: b2,
       a3 ++ HStep.callNext :: b3] c =
      runSteps
        (callNextFn
          [a1 ++ HStep.callNext :: b1, a2 ++ HStep.callNext :: b2,
           a3 ++ HStep.callNext :: b3] 4)
        (a1 ++ HStep.callNext :: b1) (stOf c 0 [0]) := rfl
  have inner : runSteps
      (callNextFn
        [a1 ++ HStep.callNext :: b1, a2 ++ HStep.callNext :: b2,
         a3 ++ HStep.callNext :: b3] 4)
      (a1 ++ HStep.callNext :: b1) (stOf c 0 [0]) =
      { callNextFn
          [a1 ++ HStep.callNext :: b1, a2 ++ HStep.callNext :: b2,
           a3 ++ HStep.callNext :: b3] 4 (stOf (applyActs a1 c) 0 [0]) with
        ctx := applyActs b1
          (callNextFn
            [a1 ++ HStep.callNext :: b1, a2 ++ HStep.callNext :: b2,
             a3 ++ HStep.callNext :: b3] 4 (stOf (applyActs a1 c) 0 [0])).ctx } :=
    runSteps_oneNext _ _ _ _ ha1 hb1
  have fin : callNextFn
      [a1 ++ HStep.callNext :: b1, a2 ++ HStep.callNext :: b2,
       a3 ++ HStep.callNext :: b3] 4 (stOf (applyActs a1 c) 0 [0]) =
      stOf (applyActs b2 (applyActs b3 (applyActs a3 (applyActs a2 (applyActs a1 c)))))
        3 ([0] ++ [1, 2]) :=
    callNextFn_runChain1
      [a1 ++ HStep.callNext :: b1, a2 ++ HStep.callNext :: b2,
       a3 ++ HStep.callNext :: b3] a2 b2 a3 b3 rfl rfl rfl ha2 hb2 ha3 hb3 _ _
  rw [e0, inner, fin]
  rfl

/-- A three-handler chain whose first handler never calls its continuation
runs only handler 0; the rest of the chain never executes. -/
theorem composedRun_three_firstNoNext (h1 : List HStep) (hh : noNextB h1 = true)
    (h2 h3 : Handler) (c : context) :
    composedRun [h1, h2, h3] c = stOf (applyActs h1 c) 0 [0] := by
  have e0 : composedRun [h1, h2, h3] c =
      runSteps (callNextFn [h1, h2, h3] 4) h1 (stOf c 0 [0]) := rfl
  rw [e0, runSteps_noNext _ _ _ hh]
  rfl

/-- A three-handler chain whose first handler calls its continuation twice
while handlers 1 and 2 each call it once: the first continuation call runs
the whole remainder once; the second call happens with the shared cursor
already at the end, increments it past the chain, and performs the
out-of-bounds `handlers[4]` access.  No handler runs twice. -/
theorem composedRun_three_twoNext
    (a1 m1 b1 a2 b2 a3 b3 : List HStep)
    (ha1 : noNextB a1 = true) (hm1 : noNextB m1 = true) (hb1 : noNextB b1 = true)
    (ha2 : noNextB a2 = true) (hb2 : noNextB b2 = true)
    (ha3 : noNextB a3 = true) (hb3 : noNextB b3 = true) (c : context) :
    composedRun
        [a1 ++ HStep.callNext :: (m1 ++ HStep.callNext :: b1),
         a2 ++ HStep.callNext :: b2, a3 ++ HStep.callNext :: b3] c =
      { ctx := applyActs b1 (applyActs m1 (applyActs b2 (applyActs b3
          (applyActs a3 (applyActs a2 (applyActs a1 c)))))),
        index := 4, trace := [0, 1, 2], oob := true } := by
  have e0 : composedRun
      [a1 ++ HStep.callNext :: (m1 ++ HStep.callNext :: b1),
       a2 ++ HStep.callNext :: b2, a3 ++ HStep.callNext :: b3] c =
      runSteps
        (callNextFn
          [a1 ++ HStep.callNext :: (m1 ++ HStep.callNext :: b1),
           a2 ++ HStep.callNext :: b2, a3 ++ HStep.callNext :: b3] 4)
        (a1 ++ HStep.callNext :: (m1 ++ HStep.callNext :: b1)) (stOf c 0 [0]) := rfl
  rw [e0, runSteps_append, runSteps_noNext _ a1 _ ha1, runSteps_callNext]
  have fin1 : callNextFn
      [a1 ++ HStep.callNext :: (m1 ++ HStep.callNext :: b1),
       a2 ++ HStep.callNext :: b2, a3 ++ HStep.callNext :: b3] 4
      { stOf c 0 [0] with ctx := applyActs a1 (stOf c 0 [0]).ctx } =
      stOf (applyActs b2 (applyActs b3 (applyActs a3 (applyActs a2 (applyActs a1 c)))))
        3 ([0] ++ [1, 2]) :=
    callNextFn_runChain1
      [a1 ++ HStep.callNext :: (m1 ++ HStep.callNext :: b1),
       a2 ++ HStep.callNext :: b2, a3 ++ HStep.callNext :: b3]
      a2 b2 a3 b3 rfl rfl rfl ha2 hb2 ha3 hb3 (applyActs a1 c) [0]
  rw [fin1, runSteps_append, runSteps_noNext _ m1 _ hm1, runSteps_callNext]
  have fin2 : callNextFn
      [a1 ++ HStep.callNext :: (m1 ++ HStep.callNext :: b1),
       a2 ++ HStep.callNext :: b2, a3 ++ HStep.callNext :: b3] 4
      { stOf (applyActs b2 (applyActs b3 (applyActs a3 (applyActs a2 (applyActs a1 c)))))
          3 ([0] ++ [1, 2]) with
        ctx := applyActs m1
          (stOf (applyActs b2 (applyActs b3 (applyActs a3 (applyActs a2 (applyActs a1 c)))))
            3 ([0] ++ [1, 2])).ctx } =
      { ctx := applyActs m1
          (applyActs b2 (applyActs b3 (applyActs a3 (applyActs a2 (applyActs a1 c))))),
        index := 4, trace := [0] ++ [1, 2], oob := true } :=
    callNextFn_oob _ 3 _ (by simp [stOf]) rfl
  rw [fin2, runSteps_noNext _ b1 _ hb1]
  rfl

/-- C4: a handler registered under (GET, "/x") on a router with empty
prefix, dispatched with a context of method GET, path "/x" and status 404,
is invoked exactly once (trace [0]) and the final context — in particular
the status — is exactly what the handler made of the incoming context. -/
theorem claim4_single_handler_once (f : context → context) (rt : Option String) :
    router.make_routes
        (router.get { prefix_ := "", handlers_ := [] } "/x" [HandlerArg.terminal f])
        { method := "GET", path := "/x", status := 404, redirect_target := rt } =
      { ctx := f { method := "GET", path := "/x", status := 404, redirect_target := rt },
        index := 0, trace := [0], oob := false } := rfl

/-- C5: dispatching any context whose status is not the sentinel 404 through
the dispatcher returned by `routes()` executes no handler and returns the
context unchanged, for every router and hence every registered route. -/
theorem claim5_nonsentinel_skip (r : router) (c : context) (h : c.status ≠ 404) :
    router.routes r c = { ctx := c, index := 0, trace := [], oob := false } := by
  simp [router.routes, router.make_routes, h]

/-- Witness for C5 at a concrete router and a context with status 200. -/
theorem claim5_witness :
    ((⟨"GET", "/x", 200, none⟩ : context).status ≠ 404) ∧
      router.routes { prefix_ := "", handlers_ := [] } ⟨"GET", "/x", 200, none⟩ =
        { ctx := ⟨"GET", "/x", 200, none⟩, index := 0, trace := [], oob := false } :=
  ⟨by decide, claim5_nonsentinel_skip _ _ (by decide)⟩

/-- C6: registering handler A for (GET, "/x") and then handler B for the
same key leaves the table untouched (`emplace` is insert-only), and a
dispatch of GET "/x" runs A, never B: the result comes from A alone, independent of B. -/
theorem claim6_first_registration_wins (A B : context → context) (rt : Option String) :
    (router.get (router.get { prefix_ := "", handlers_ := [] } "/x" [HandlerArg.terminal A])
        "/x" [HandlerArg.terminal B]).handlers_ =
      (router.get { prefix_ := "", handlers_ := [] } "/x" [HandlerArg.terminal A]).handlers_ ∧
    router.make_routes
        (router.get (router.get { prefix_ := "", handlers_ := [] } "/x" [HandlerArg.terminal A])
          "/x" [HandlerArg.terminal B])
        { method := "GET", path := "/x", status := 404, redirect_target := rt } =
      { ctx := A { method := "GET", path := "/x", status := 404, redirect_target := rt },
        index := 0, trace := [0], oob := false } :=
  ⟨rfl, rfl⟩

/-- Counterexample to C7: a router constructed with prefix "/api" that
registers GET "/users" does NOT match a dispatch of GET "/api/users" (the
dispatcher also prepends the prefix, building "GET+/api/api/users", so the
context comes back unchanged and no handler runs), and it DOES match a
dispatch of GET "/users" (both keys are "GET+/api/users", so the handler
runs and sets status 200) — the opposite of both halves of the consequence stated by the claim. -/
theorem claim7_counterexample :
    router.make_routes
        (router.get { prefix_ := "/api", handlers_ := [] } "/users"
          [HandlerArg.terminal (fun c => { c with status := 200 })])
        { method := "GET", path := "/api/users", status := 404, redirect_target := none } =
      { ctx := { method := "GET", path := "/api/users", status := 404, redirect_target := none },
        index := 0, trace := [], oob := false } ∧
    router.make_routes
        (router.get { prefix_ := "/api", handlers_ := [] } "/users"
          [HandlerArg.terminal (fun c => { c with status := 200 })])
        { method := "GET", path := "/users", status := 404, redirect_target := none } =
      { ctx := { method := "GET", path := "/users", status := 200, redirect_target := none },
        index := 0, trace := [0], oob := false } :=
  ⟨rfl, rfl⟩

/-- C7 as amended: registration and lookup do build the route key by the
identical literal concatenation method + "+" + prefix + path with exact
string equality; since the dispatcher also prepends the prefix of the router itself to
the incoming path as well, a router constructed with prefix "/api" that
registers GET "/users" matches a dispatch of GET "/users" and does not
match a dispatch of GET "/api/users". -/
theorem claim7_amended_prefix_on_both_sides (f : context → context) (rt1 rt2 : Option String) :
    router.make_routes
        (router.get { prefix_ := "/api", handlers_ := [] } "/users" [HandlerArg.terminal f])
        { method := "GET", path := "/users", status := 404, redirect_target := rt1 } =
      { ctx := f { method := "GET", path := "/users", status := 404, redirect_target := rt1 },
        index := 0, trace := [0], oob := false } ∧
    router.make_routes
        (router.get { prefix_ := "/api", handlers_ := [] } "/users" [HandlerArg.terminal f])
        { method := "GET", path := "/api/users", status := 404, redirect_target := rt2 } =
      { ctx := { method := "GET", path := "/api/users", status := 404, redirect_target := rt2 },
        index := 0, trace := [], oob := false } :=
  ⟨rfl, rfl⟩

/-- C8: after `redirect("/old", "/new")`, dispatching an unhandled context
with path "/old" under each of the five verbs invokes the registered
terminal handler once and yields status 301 with redirect target "/new";
with explicit status 302 (`redirect_impl("/old", "/new", 302)`) it yields
status 302 instead, again for all five verbs. -/
theorem claim8_redirect_all_verbs (rt : Option String) :
    router.make_routes (router.redirect { prefix_ := "", handlers_ := [] } "/old" "/new")
        ⟨"DEL", "/old", 404, rt⟩ =
      { ctx := ⟨"DEL", "/old", 301, some "/new"⟩, index := 0, trace := [0], oob := false } ∧
    router.make_routes (router.redirect { prefix_ := "", handlers_ := [] } "/old" "/new")
        ⟨"GET", "/old", 404, rt⟩ =
      { ctx := ⟨"GET", "/old", 301, some "/new"⟩, index := 0, trace := [0], oob := false } ∧
    router.make_routes (router.redirect { prefix_ := "", handlers_ := [] } "/old" "/new")
        ⟨"HEAD", "/old", 404, rt⟩ =
      { ctx := ⟨"HEAD", "/old", 301, some "/new"⟩, index := 0, trace := [0], oob := false } ∧
    router.make_routes (router.redirect { prefix_ := "", handlers_ := [] } "/old" "/new")
        ⟨"POST", "/old", 404, rt⟩ =
      { ctx := ⟨"POST", "/old", 301, some "/new"⟩, index := 0, trace := [0], oob := false } ∧
    router.make_routes (router.redirect { prefix_ := "", handlers_ := [] } "/old" "/new")
        ⟨"PUT", "/old", 404, rt⟩ =
      { ctx := ⟨"PUT", "/old", 301, some "/new"⟩, index := 0, trace := [0], oob := false } ∧
    router.make_routes (router.redirect_impl { prefix_ := "", handlers_ := [] } "/old" "/new" 302)
        ⟨"DEL", "/old", 404, rt⟩ =
      { ctx := ⟨"DEL", "/old", 302, some "/new"⟩, index := 0, trace := [0], oob := false } ∧
    router.make_routes (router.redirect_impl { prefix_ := "", handlers_ := [] } "/old" "/new" 302)
        ⟨"GET", "/old", 404, rt⟩ =
      { ctx := ⟨"GET", "/old", 302, some "/new"⟩, index := 0, trace := [0], oob := false } ∧
    router.make_routes (router.redirect_impl { prefix_ := "", handlers_ := [] } "/old" "/new" 302)
        ⟨"HEAD", "/old", 404, rt⟩ =
      { ctx := ⟨"HEAD", "/old", 302, some "/new"⟩, index := 0, trace := [0], oob := false } ∧
    router.make_routes (router.redirect_impl { prefix_ := "", handlers_ := [] } "/old" "/new" 302)
        ⟨"POST", "/old", 404, rt⟩ =
      { ctx := ⟨"POST", "/old", 302, some "/new"⟩, index := 0, trace := [0], oob := false } ∧
    router.make_routes (router.redirect_impl { prefix_ := "", handlers_ := [] } "/old" "/new" 302)
        ⟨"PUT", "/old", 404, rt⟩ =
      { ctx := ⟨"PUT", "/old", 302, some "/new"⟩, index := 0, trace := [0], oob := false } :=
  ⟨rfl, rfl, rfl, rfl, rfl, rfl, rfl, rfl, rfl, rfl⟩

/-- C9: a still-unhandled context (status 404) whose lookup key has no table
entry is left completely unchanged by the dispatcher: no handler is invoked
and the status stays 404. -/
theorem claim9_unmatched_noop (r : router) (c : context) (h404 : c.status = 404)
    (hmiss : lookup r.handlers_ (c.method ++ "+" ++ r.prefix_ ++ c.path) = none) :
    router.routes r c = { ctx := c, index := 0, trace := [], oob := false } := by
  simp [router.routes, router.make_routes, h404, hmiss]

/-- Witness for C9: a router with one registered route, dispatched at a
different path. -/
theorem claim9_witness :
    ((⟨"GET", "/y", 404, none⟩ : context).status = 404) ∧
    lookup (router.get { prefix_ := "", handlers_ := [] } "/x"
        [HandlerArg.terminal (fun c => { c with status := 200 })]).handlers_
      ((⟨"GET", "/y", 404, none⟩ : context).method ++ "+" ++
        (router.get { prefix_ := "", handlers_ := [] } "/x"
          [HandlerArg.terminal (fun c => { c with status := 200 })]).prefix_ ++
        (⟨"GET", "/y", 404, none⟩ : context).path) = none ∧
    router.routes
        (router.get { prefix_ := "", handlers_ := [] } "/x"
          [HandlerArg.terminal (fun c => { c with status := 200 })])
        ⟨"GET", "/y", 404, none⟩ =
      { ctx := ⟨"GET", "/y", 404, none⟩, index := 0, trace := [], oob := false } :=
  ⟨rfl, rfl, claim9_unmatched_noop _ _ rfl rfl⟩

/-- C1: a route registered with handlers [h1, h2, h3], each of which calls
its continuation exactly once (body = acts, one callNext, acts), dispatched
with a matching still-unhandled context, executes the handlers exactly in
the order 0, 1, 2, each exactly once. -/
theorem claim1_handlers_run_in_order
    (a1 b1 a2 b2 a3 b3 : List HStep)
    (ha1 : noNextB a1 = true) (hb1 : noNextB b1 = true)
    (ha2 : noNextB a2 = true) (hb2 : noNextB b2 = true)
    (ha3 : noNextB a3 = true) (hb3 : noNextB b3 = true)
    (m p path : String) (rt : Option String) :
    (router.make_routes
        (router.register_impl { prefix_ := p, handlers_ := [] } m path
          [HandlerArg.withNext (a1 ++ HStep.callNext :: b1),
           HandlerArg.withNext (a2 ++ HStep.callNext :: b2),
           HandlerArg.withNext (a3 ++ HStep.callNext :: b3)])
        { method := m, path := path, status := 404, redirect_target := rt }).trace =
      [0, 1, 2] := by
  have e := make_routes_entry
    (router.register_impl { prefix_ := p, handlers_ := [] } m path
      [HandlerArg.withNext (a1 ++ HStep.callNext :: b1),
       HandlerArg.withNext (a2 ++ HStep.callNext :: b2),
       HandlerArg.withNext (a3 ++ HStep.callNext :: b3)])
    { method := m, path := path, status := 404, redirect_target := rt }
    (composedRun
      [a1 ++ HStep.callNext :: b1, a2 ++ HStep.callNext :: b2,
       a3 ++ HStep.callNext :: b3])
    rfl rfl
  rw [e, composedRun_three_oneNext a1 b1 a2 b2 a3 b3 ha1 hb1 ha2 hb2 ha3 hb3]
  rfl

/-- Witness for C1: three handlers whose bodies are exactly one
continuation call each. -/
theorem claim1_witness :
    (noNextB [] = true) ∧
    (router.make_routes
        (router.register_impl { prefix_ := "", handlers_ := [] } "GET" "/x"
          [HandlerArg.withNext ([] ++ HStep.callNext :: []),
           HandlerArg.withNext ([] ++ HStep.callNext :: []),
           HandlerArg.withNext ([] ++ HStep.callNext :: [])])
        { method := "GET", path := "/x", status := 404, redirect_target := none }).trace =
      [0, 1, 2] :=
  ⟨rfl, claim1_handlers_run_in_order [] [] [] [] [] [] rfl rfl rfl rfl rfl rfl
    "GET" "" "/x" none⟩

/-- C2: in a registered chain [h1, h2, h3], if h1 never calls its
continuation then only handler 0 is ever invoked during the dispatch — h2
and h3 never execute. -/
theorem claim2_short_circuit
    (h1 : List HStep) (hh : noNextB h1 = true) (h2 h3 : Handler)
    (m p path : String) (rt : Option String) :
    (router.make_routes
        (router.register_impl { prefix_ := p, handlers_ := [] } m path
          [HandlerArg.withNext h1, HandlerArg.withNext h2, HandlerArg.withNext h3])
        { method := m, path := path, status := 404, redirect_target := rt }).trace =
      [0] := by
  have e := make_routes_entry
    (router.register_impl { prefix_ := p, handlers_ := [] } m path
      [HandlerArg.withNext h1, HandlerArg.withNext h2, HandlerArg.withNext h3])
    { method := m, path := path, status := 404, redirect_target := rt }
    (composedRun [h1, h2, h3])
    rfl rfl
  rw [e, composedRun_three_firstNoNext h1 hh h2 h3]
  rfl

/-- Witness for C2: an empty-bodied h1 (no continuation call) in front of
two handlers that would pass control on. -/
theorem claim2_witness :
    (noNextB [] = true) ∧
    (router.make_routes
        (router.register_impl { prefix_ := "", handlers_ := [] } "GET" "/x"
          [HandlerArg.withNext [], HandlerArg.withNext [HStep.callNext],
           HandlerArg.withNext [HStep.callNext]])
        { method := "GET", path := "/x", status := 404, redirect_target := none }).trace =
      [0] :=
  ⟨rfl, claim2_short_circuit [] rfl [HStep.callNext] [HStep.callNext] "GET" "" "/x" none⟩

/-- Counterexample to C3: in the chain [h1, h2, h3] where h1 calls its
continuation twice and h2, h3 each call it once, handler 1 does NOT execute
twice — it executes exactly once (the trace is [0, 1, 2]; the shared cursor
never decreases, and the second call made by h1 runs past the end of the chain). -/
theorem claim3_counterexample :
    ¬((router.make_routes
        (router.register_impl { prefix_ := "", handlers_ := [] } "GET" "/x"
          [HandlerArg.withNext [HStep.callNext, HStep.callNext],
           HandlerArg.withNext [HStep.callNext],
           HandlerArg.withNext [HStep.callNext]])
        { method := "GET", path := "/x", status := 404, redirect_target := none
        }).trace.count 1 = 2) := by
  decide

/-- C3 as amended: an extra continuation call advances the shared cursor
from wherever it currently is, so no handler position ever executes more
than once; in the chain [h1, h2, h3] where h1 calls its continuation twice
and h2, h3 each call it once, the first call runs the whole remainder once
(trace [0, 1, 2]) and the second call finds the cursor already at the end,
increments it past the chain, and performs the out-of-bounds
`handlers[index]` access (undefined behaviour in C++, marked by `oob`). -/
theorem claim3_amended_no_reexecution
    (a1 m1 b1 a2 b2 a3 b3 : List HStep)
    (ha1 : noNextB a1 = true) (hm1 : noNextB m1 = true) (hb1 : noNextB b1 = true)
    (ha2 : noNextB a2 = true) (hb2 : noNextB b2 = true)
    (ha3 : noNextB a3 = true) (hb3 : noNextB b3 = true)
    (m p path : String) (rt : Option String) :
    router.make_routes
        (router.register_impl { prefix_ := p, handlers_ := [] } m path
          [HandlerArg.withNext (a1 ++ HStep.callNext :: (m1 ++ HStep.callNext :: b1)),
           HandlerArg.withNext (a2 ++ HStep.callNext :: b2),
           HandlerArg.withNext (a3 ++ HStep.callNext :: b3)])
        { method := m, path := path, status := 404, redirect_target := rt } =
      { ctx := applyActs b1 (applyActs m1 (applyActs b2 (applyActs b3
          (applyActs a3 (applyActs a2 (applyActs a1
            { method := m, path := path, status := 404, redirect_target := rt })))))),
        index := 4, trace := [0, 1, 2], oob := true } := by
  have e := make_routes_entry
    (router.register_impl { prefix_ := p, handlers_ := [] } m path
      [HandlerArg.withNext (a1 ++ HStep.callNext :: (m1 ++ HStep.callNext :: b1)),
       HandlerArg.withNext (a2 ++ HStep.callNext :: b2),
       HandlerArg.withNext (a3 ++ HStep.callNext :: b3)])
    { method := m, path := path, status := 404, redirect_target := rt }
    (composedRun
      [a1 ++ HStep.callNext :: (m1 ++ HStep.callNext :: b1),
       a2 ++ HStep.callNext :: b2, a3 ++ HStep.callNext :: b3])
    rfl rfl
  rw [e, composedRun_three_twoNext a1 m1 b1 a2 b2 a3 b3 ha1 hm1 hb1 ha2 hb2 ha3 hb3]

/-- Witness for the amended C3, with minimal handler bodies. -/
theorem claim3_witness :
    (noNextB [] = true) ∧
    router.make_routes
        (router.register_impl { prefix_ := "", handlers_ := [] } "GET" "/x"
          [HandlerArg.withNext ([] ++ HStep.callNext :: ([] ++ HStep.callNext :: [])),
           HandlerArg.withNext ([] ++ HStep.callNext :: []),
           HandlerArg.withNext ([] ++ HStep.callNext :: [])])
        { method := "GET", path := "/x", status := 404, redirect_target := none } =
      { ctx := { method := "GET", path := "/x", status := 404, redirect_target := none },
        index := 4, trace := [0, 1, 2], oob := true } :=
  ⟨rfl, claim3_amended_no_reexecution [] [] [] [] [] [] [] rfl rfl rfl rfl rfl rfl rfl
    "GET" "" "/x" none⟩

/-- C10: in a registered chain, a member handler of the with-continuation
shape bound to a null instance pointer invokes neither the member body nor
the continuation — the dispatch returns the context unchanged with trace
[0], so every later handler never runs; a member handler of the terminal
shape bound to a null instance pointer skips the member body but still
invokes the continuation unconditionally, so the next handler in the chain
does execute (the trace starts [0, 1]). -/
theorem claim10_null_instance_member
    (body : Handler) (f : context → context) (a2 : HandlerArg) (rest : List HandlerArg)
    (m p path : String) (rt : Option String) :
    router.make_routes
        (router.register_impl { prefix_ := p, handlers_ := [] } m path
          (HandlerArg.memWithNext body false :: a2 :: rest))
        { method := m, path := path, status := 404, redirect_target := rt } =
      { ctx := { method := m, path := path, status := 404, redirect_target := rt },
        index := 0, trace := [0], oob := false } ∧
    ((router.make_routes
        (router.register_impl { prefix_ := p, handlers_ := [] } m path
          (HandlerArg.memTerminal f false :: a2 :: rest))
        { method := m, path := path, status := 404, redirect_target := rt
      }).trace.take 2 = [0, 1]) := by
  constructor
  · exact make_routes_entry
      (router.register_impl { prefix_ := p, handlers_ := [] } m path
        (HandlerArg.memWithNext body false :: a2 :: rest))
      { method := m, path := path, status := 404, redirect_target := rt }
      (composedRun (register_multiple (HandlerArg.memWithNext body false :: a2 :: rest)))
      rfl rfl
  · obtain ⟨t, ht⟩ := runSteps_trace_extend
      (callNextFn (register_multiple (HandlerArg.memTerminal f false :: a2 :: rest))
        (register_multiple (HandlerArg.memTerminal f false :: a2 :: rest)).length)
      (callNextFn_trace_extend
        (register_multiple (HandlerArg.memTerminal f false :: a2 :: rest))
        (register_multiple (HandlerArg.memTerminal f false :: a2 :: rest)).length)
      (normalize a2)
      (stOf { method := m, path := path, status := 404, redirect_target := rt } 1 [0, 1])
    have e1 : composedRun (register_multiple (HandlerArg.memTerminal f false :: a2 :: rest))
        { method := m, path := path, status := 404, redirect_target := rt } =
        callNextFn (register_multiple (HandlerArg.memTerminal f false :: a2 :: rest))
          ((register_multiple (HandlerArg.memTerminal f false :: a2 :: rest)).length + 1)
          (stOf { method := m, path := path, status := 404, redirect_target := rt } 0 [0]) :=
      rfl
    have hstep : callNextFn (register_multiple (HandlerArg.memTerminal f false :: a2 :: rest))
        ((register_multiple (HandlerArg.memTerminal f false :: a2 :: rest)).length + 1)
        (stOf { method := m, path := path, status := 404, redirect_target := rt } 0 [0]) =
        runSteps
          (callNextFn (register_multiple (HandlerArg.memTerminal f false :: a2 :: rest))
            (register_multiple (HandlerArg.memTerminal f false :: a2 :: rest)).length)
          (normalize a2)
          (stOf { method := m, path := path, status := 404, redirect_target := rt } 1 [0, 1]) :=
      callNextFn_hit
        (register_multiple (HandlerArg.memTerminal f false :: a2 :: rest))
        (register_multiple (HandlerArg.memTerminal f false :: a2 :: rest)).length
        (stOf { method := m, path := path, status := 404, redirect_target := rt } 0 [0])
        (normalize a2)
        (by
          simp only [stOf, register_multiple, List.map_cons, List.length_cons,
            List.length_map]
          omega)
        (by simp [stOf, register_multiple])
    have key : (router.make_routes
        (router.register_impl { prefix_ := p, handlers_ := [] } m path
          (HandlerArg.memTerminal f false :: a2 :: rest))
        { method := m, path := path, status := 404, redirect_target := rt }).trace =
        [0, 1] ++ t := by
      rw [make_routes_entry
        (router.register_impl { prefix_ := p, handlers_ := [] } m path
          (HandlerArg.memTerminal f false :: a2 :: rest))
        { method := m, path := path, status := 404, redirect_target := rt }
        (composedRun (register_multiple (HandlerArg.memTerminal f false :: a2 :: rest)))
        rfl rfl, e1, hstep]
      exact ht
    rw [key]
    rfl

end Cuehttp
